import Mathlib

/-!
Verification of the OAuth redirect-callback handler
(`src/pages/AuthCallbackPage.tsx`).

The handler is embedded as a pure function from an explicit environment
(network oracle for `fetch`, auth/persistence oracles for the supabase
collaborator, window state, clock) and the redirect query parameters to a
trace of observable events plus a final outcome.  JavaScript-specific
behaviour is modelled explicitly: `searchParams.get` yields `null` for an
absent key (`Option.none` here), `if (x)` tests truthiness (null and the
empty string are falsy), `URLSearchParams` stringifies an `undefined`
value to the literal text `undefined`, and `a || b` falls back on the
empty string.
-/

namespace AuthCallback

/-- The redirect query parameters read by `handleAuth` (lines 17-20 of the
source): `platform`, `code`, `error`, `state`; an absent key is `none`. -/
structure Params where
  platform : Option String
  code : Option String
  error : Option String
  state : Option String
deriving DecidableEq

/-- Build-time configuration (the `import.meta.env.VITE_*` values consumed by
the adapters); a variable that is not set is `none` (JavaScript
`undefined`). -/
structure Config where
  twitterClientId : Option String
  linkedinClientId : Option String
  linkedinClientSecret : Option String
  facebookAppId : Option String
  facebookClientSecret : Option String
  instagramClientId : Option String
  instagramClientSecret : Option String
deriving DecidableEq

/-- The JSON fields of a token-endpoint response body that the handlers ever
read: `access_token`, `refresh_token`, `expires_in` (seconds), and
`error_description` (read from the body of a non-ok response). -/
structure TokenBody where
  access_token : Option String
  refresh_token : Option String
  expires_in : Option Int
  error_description : Option String
deriving DecidableEq

/-- A `fetch` response as observed by the handlers: the `ok` flag and the
parsed JSON body. -/
structure HttpResponse where
  ok : Bool
  body : TokenBody
deriving DecidableEq

/-- An outbound token-endpoint request: URL, HTTP method, and the
form-encoded body as an ordered field list. -/
structure Request where
  url : String
  method : String
  body : List (String × String)
deriving DecidableEq

/-- The record passed to the credential-persistence upsert (lines 109-115).
`expires_at` is the millisecond-epoch instant that the source serialises
with `toISOString`; `user_id` is `undefined` (`none`) when no user is
authenticated, because the source reads it with optional chaining. -/
structure UpsertRecord where
  platform : String
  access_token : Option String
  refresh_token : Option String
  expires_at : Int
  user_id : Option String
deriving DecidableEq

/-- A structured message posted to the opener window. -/
inductive PostedMessage
  | authSuccess (platform : String)
  | authError (error : String)
deriving DecidableEq

/-- One observable side effect of the flow, in program order. -/
inductive Event
  | fetch (req : Request)
  | getUser
  | upsert (record : UpsertRecord)
  | connectAccount (platform : String)
  | setStatus (msg : String)
  | setError (msg : String)
  | postMessage (msg : PostedMessage) (targetOrigin : String)
  | closeWindow
  | navigate (path : String)
deriving DecidableEq

/-- Final outcome of one callback invocation. -/
inductive Outcome
  | success (platform : String)
  | failure (message : String)
deriving DecidableEq

/-- The environment of one invocation: the network oracle (`fetch`), the
authenticated-user oracle (`supabase.auth.getUser`), the persistence oracle
(`supabase...upsert`, returning an error or `none`), whether the page runs
as a popup (`window.opener`), the page origin (`window.location.origin`)
and the current time in ms (`Date.now()`). -/
structure Env where
  net : Request → HttpResponse
  getUserId : Option String
  upsertResult : UpsertRecord → Option String
  hasOpener : Bool
  origin : String
  now : Int

/-- JavaScript string coercion applied by `URLSearchParams` to each value:
`undefined` becomes the literal text `undefined`. -/
def jsString : Option String → String
  | none => "undefined"
  | some s => s

/-- JavaScript truthiness of a nullable string: `null` and `""` are falsy. -/
def truthy : Option String → Bool
  | none => false
  | some s => s ≠ ""

/-- JavaScript `a || b` on strings: the empty string falls back on `b`. -/
def jsOr (s d : String) : String := if s = "" then d else s

/-- JavaScript `a || b` where `a` may be `undefined`. -/
def jsOrOpt (o : Option String) (d : String) : String :=
  match o with
  | none => d
  | some s => jsOr s d

/-- The delay (ms) of `setTimeout` before failure propagation (line 72). -/
def failureDelayMs : Nat := 3000

/-- The request built by `handleTwitterAuth` (lines 81-96): POST to the
same-origin proxy with the form fields in source order. -/
def twitterRequest (env : Env) (cfg : Config) (code : String) : Request :=
  { url := "https://api.socialsync.fun/twitter/token"
    method := "POST"
    body := [("code", code),
             ("grant_type", "authorization_code"),
             ("redirect_uri", env.origin ++ "/auth/callback?platform=twitter"),
             ("code_verifier", "challenge"),
             ("client_id", jsString cfg.twitterClientId)] }

/-- The record upserted by `handleTwitterAuth` (lines 109-115) for a token
body whose `expires_in` is `e` seconds: `expires_at` is `Date.now() + e *
1000` and `user_id` is the resolved authenticated-user id. -/
def twitterRecord (env : Env) (body : TokenBody) (e : Int) : UpsertRecord :=
  { platform := "twitter"
    access_token := body.access_token
    refresh_token := body.refresh_token
    expires_at := env.now + e * 1000
    user_id := env.getUserId }

/-- The body of `handleTwitterAuth` (lines 80-121) before its own `catch`
wrapper: fetch the exchange; on a non-ok response throw the `error_description`
of the response body (or the default text); on an ok response compute
`expires_at` (a missing `expires_in` makes `new Date(NaN).toISOString()`
throw a RangeError before the upsert), resolve the user, upsert, and
notify `connectAccount` only when the upsert reported no error. -/
def handleTwitterAuthRaw (env : Env) (cfg : Config) (code : String) :
    List Event × Option String :=
  if (env.net (twitterRequest env cfg code)).ok then
    match (env.net (twitterRequest env cfg code)).body.expires_in with
    | none => ([Event.fetch (twitterRequest env cfg code)], some "Invalid time value")
    | some e =>
      match env.upsertResult (twitterRecord env (env.net (twitterRequest env cfg code)).body e) with
      | some _ =>
          ([Event.fetch (twitterRequest env cfg code), Event.getUser,
            Event.upsert (twitterRecord env (env.net (twitterRequest env cfg code)).body e)],
           some "Failed to store Twitter credentials")
      | none =>
          ([Event.fetch (twitterRequest env cfg code), Event.getUser,
            Event.upsert (twitterRecord env (env.net (twitterRequest env cfg code)).body e),
            Event.connectAccount "twitter"],
           none)
  else
    ([Event.fetch (twitterRequest env cfg code)],
     some (jsOrOpt (env.net (twitterRequest env cfg code)).body.error_description
             "Failed to get Twitter access token"))

/-- `handleTwitterAuth` (lines 79-126): the inner `catch` rethrows
`error.message || the default text`. -/
def handleTwitterAuth (env : Env) (cfg : Config) (code : String) :
    List Event × Option String :=
  match handleTwitterAuthRaw env cfg code with
  | (evs, some m) => (evs, some (jsOr m "Failed to authenticate with Twitter"))
  | (evs, none) => (evs, none)

/-- The request built by `handleLinkedInAuth` (lines 129-141). -/
def linkedinRequest (env : Env) (cfg : Config) (code : String) : Request :=
  { url := "https://www.linkedin.com/oauth/v2/accessToken"
    method := "POST"
    body := [("grant_type", "authorization_code"),
             ("code", code),
             ("client_id", jsString cfg.linkedinClientId),
             ("client_secret", jsString cfg.linkedinClientSecret),
             ("redirect_uri", env.origin ++ "/auth/callback?platform=linkedin")] }

/-- `handleLinkedInAuth` (lines 128-149): exchange, then notify
`connectAccount`; no persistence. -/
def handleLinkedInAuth (env : Env) (cfg : Config) (code : String) :
    List Event × Option String :=
  if (env.net (linkedinRequest env cfg code)).ok then
    ([Event.fetch (linkedinRequest env cfg code), Event.connectAccount "linkedin"], none)
  else
    ([Event.fetch (linkedinRequest env cfg code)], some "Failed to get LinkedIn access token")

/-- The request built by `handleFacebookAuth` (lines 152-163): a GET whose
body is supplied as encoded params, as in the source. -/
def facebookRequest (env : Env) (cfg : Config) (code : String) : Request :=
  { url := "https://graph.facebook.com/v18.0/oauth/access_token"
    method := "GET"
    body := [("client_id", jsString cfg.facebookAppId),
             ("redirect_uri", env.origin ++ "/auth/callback?platform=facebook"),
             ("client_secret", jsString cfg.facebookClientSecret),
             ("code", code)] }

/-- `handleFacebookAuth` (lines 151-171): exchange, then notify
`connectAccount`; no persistence. -/
def handleFacebookAuth (env : Env) (cfg : Config) (code : String) :
    List Event × Option String :=
  if (env.net (facebookRequest env cfg code)).ok then
    ([Event.fetch (facebookRequest env cfg code), Event.connectAccount "facebook"], none)
  else
    ([Event.fetch (facebookRequest env cfg code)], some "Failed to get Facebook access token")

/-- The request built by `handleInstagramAuth` (lines 174-186). -/
def instagramRequest (env : Env) (cfg : Config) (code : String) : Request :=
  { url := "https://api.instagram.com/oauth/access_token"
    method := "POST"
    body := [("client_id", jsString cfg.instagramClientId),
             ("client_secret", jsString cfg.instagramClientSecret),
             ("grant_type", "authorization_code"),
             ("redirect_uri", env.origin ++ "/auth/callback?platform=instagram"),
             ("code", code)] }

/-- `handleInstagramAuth` (lines 173-194): exchange, then notify
`connectAccount`; no persistence. -/
def handleInstagramAuth (env : Env) (cfg : Config) (code : String) :
    List Event × Option String :=
  if (env.net (instagramRequest env cfg code)).ok then
    ([Event.fetch (instagramRequest env cfg code), Event.connectAccount "instagram"], none)
  else
    ([Event.fetch (instagramRequest env cfg code)], some "Failed to get Instagram access token")

/-- The `switch (platform)` dispatch (lines 33-48); an unknown tag throws
`Unsupported platform`. -/
def dispatch (env : Env) (cfg : Config) (platform code : String) :
    List Event × Option String :=
  if platform = "twitter" then handleTwitterAuth env cfg code
  else if platform = "linkedin" then handleLinkedInAuth env cfg code
  else if platform = "facebook" then handleFacebookAuth env cfg code
  else if platform = "instagram" then handleInstagramAuth env cfg code
  else ([], some "Unsupported platform")

/-- The `try` block of `handleAuth` (lines 16-48): the events it emits and
either the thrown error message (`Sum.inl`) or the connected platform on
success (`Sum.inr`).  `if (error)` and `if (!platform || !code)` are
truthiness tests. -/
def coreRun (env : Env) (cfg : Config) (p : Params) : List Event × (String ⊕ String) :=
  if truthy p.error then
    ([], Sum.inl ("Authentication failed: " ++ p.error.getD ""))
  else if !truthy p.platform || !truthy p.code then
    ([], Sum.inl "Missing required parameters")
  else
    match dispatch env cfg (p.platform.getD "") (p.code.getD "") with
    | (aevs, some msg) =>
        (Event.setStatus ("Connecting " ++ p.platform.getD "" ++ " account...") :: aevs,
         Sum.inl msg)
    | (aevs, none) =>
        (Event.setStatus ("Connecting " ++ p.platform.getD "" ++ " account...") :: aevs,
         Sum.inr (p.platform.getD ""))

/-- Result propagation (lines 53-58 and 66-71): in a popup, post the message
to the opener restricted to the page origin and close; otherwise navigate
home. -/
def propagateEvents (env : Env) (msg : PostedMessage) : List Event :=
  if env.hasOpener then [Event.postMessage msg env.origin, Event.closeWindow]
  else [Event.navigate "/"]

/-- The full observable behaviour of one invocation: the events run immediately,
the optional `setTimeout` continuation as (delay ms, its events), and the
outcome. -/
structure FlowResult where
  immediate : List Event
  delayed : Option (Nat × List Event)
  outcome : Outcome
deriving DecidableEq

/-- The success tail of `handleAuth` (lines 50-58): status update then
immediate propagation. -/
def mkSuccess (env : Env) (evs : List Event) (platform : String) : FlowResult :=
  { immediate := evs ++ [Event.setStatus "Successfully connected!"] ++
      propagateEvents env (PostedMessage.authSuccess platform)
    delayed := none
    outcome := Outcome.success platform }

/-- The `catch` block of `handleAuth` (lines 59-73): record the error and
status, and schedule propagation after the fixed visibility delay. -/
def mkFailure (env : Env) (evs : List Event) (msg : String) : FlowResult :=
  { immediate := evs ++ [Event.setError msg, Event.setStatus "Authentication failed"]
    delayed := some (failureDelayMs, propagateEvents env (PostedMessage.authError msg))
    outcome := Outcome.failure msg }

/-- `handleAuth` (lines 15-74): run the `try` block and dispatch its result
to the success tail or the `catch` block. -/
def handleAuth (env : Env) (cfg : Config) (p : Params) : FlowResult :=
  match coreRun env cfg p with
  | (evs, Sum.inl msg) => mkFailure env evs msg
  | (evs, Sum.inr platform) => mkSuccess env evs platform

/-- All events of an invocation in temporal order: the immediate ones
followed by the delayed continuation, if any. -/
def allEvents (r : FlowResult) : List Event :=
  r.immediate ++ (match r.delayed with
    | none => []
    | some d => d.2)

/-- Is the event a propagation action (opener message, window close, or
navigation)? -/
def isPropagationEvent : Event → Bool
  | Event.postMessage _ _ => true
  | Event.closeWindow => true
  | Event.navigate _ => true
  | _ => false

/-- The non-propagation events of a trace. -/
def nonPropagation (l : List Event) : List Event :=
  l.filter fun e => !isPropagationEvent e

/-- The token-endpoint requests issued in a trace. -/
def fetchedRequests (l : List Event) : List Request :=
  l.filterMap fun e => match e with
    | Event.fetch r => some r
    | _ => none

/-- The records passed to the persistence upsert in a trace. -/
def upsertRecords (l : List Event) : List UpsertRecord :=
  l.filterMap fun e => match e with
    | Event.upsert r => some r
    | _ => none

/-- The arguments of the `connectAccount` notifications in a trace. -/
def connectedPlatforms (l : List Event) : List String :=
  l.filterMap fun e => match e with
    | Event.connectAccount p => some p
    | _ => none

/-- The messages posted to the opener in a trace, with their target
origins. -/
def postedMessages (l : List Event) : List (PostedMessage × String) :=
  l.filterMap fun e => match e with
    | Event.postMessage m o => some (m, o)
    | _ => none

/-- The navigation targets of a trace. -/
def navigationsOf (l : List Event) : List String :=
  l.filterMap fun e => match e with
    | Event.navigate p => some p
    | _ => none

/-- The downstream collaborator calls of a trace: persistence upserts and
`connectAccount` notifications. -/
def downstreamCalls (l : List Event) : List Event :=
  l.filter fun e => match e with
    | Event.upsert _ => true
    | Event.connectAccount _ => true
    | _ => false

/-- Scans a trace and checks that every persistence upsert is preceded by a
resolution of the authenticated user; the flag records whether a
resolution has been seen. -/
def userResolvedScan : Bool → List Event → Bool
  | _, [] => true
  | seen, Event.upsert _ :: rest => seen && userResolvedScan seen rest
  | _, Event.getUser :: rest => userResolvedScan true rest
  | seen, _ :: rest => userResolvedScan seen rest

/-- The opener message matching an outcome: `SOCIAL_AUTH_SUCCESS` with the
platform on success, `SOCIAL_AUTH_ERROR` with the error text on failure. -/
def outcomeMessage : Outcome → PostedMessage
  | Outcome.success p => PostedMessage.authSuccess p
  | Outcome.failure m => PostedMessage.authError m

/-- A token body representing a typical successful provider response. -/
def okTokenBody : TokenBody :=
  { access_token := some "tok", refresh_token := some "ref",
    expires_in := some 3600, error_description := none }

/-- A network oracle whose every response is ok with `okTokenBody`. -/
def netOk : Request → HttpResponse := fun _ => { ok := true, body := okTokenBody }

/-- A configuration with every client credential set. -/
def cfgFull : Config :=
  { twitterClientId := some "tcid", linkedinClientId := some "lcid",
    linkedinClientSecret := some "lsec", facebookAppId := some "fbid",
    facebookClientSecret := some "fbsec", instagramClientId := some "igid",
    instagramClientSecret := some "igsec" }

/-- A configuration missing the twitter client id and the LinkedIn client
secret. -/
def cfgMissing : Config :=
  { cfgFull with twitterClientId := none, linkedinClientSecret := none }

/-- A baseline environment: popup context, authenticated user, persistence
succeeding, every exchange succeeding. -/
def envBase : Env :=
  { net := netOk, getUserId := some "user-1", upsertResult := fun _ => none,
    hasOpener := true, origin := "https://app.example", now := 1000000 }

/-- `envBase` with a failing persistence upsert. -/
def envUpsertFail : Env := { envBase with upsertResult := fun _ => some "db error" }

/-- `envBase` with no authenticated user. -/
def envNoUser : Env := { envBase with getUserId := none }

/-- `envBase` in a full-page (no opener) context. -/
def envNoOpener : Env := { envBase with hasOpener := false }

/-! ### Structural lemmas about the adapters and the orchestrator -/

lemma handleTwitterAuth_fst (env : Env) (cfg : Config) (code : String) :
    (handleTwitterAuth env cfg code).1 = (handleTwitterAuthRaw env cfg code).1 := by
  unfold handleTwitterAuth
  split <;> simp_all

lemma twitterRaw_not_prop (env : Env) (cfg : Config) (code : String) :
    ∀ e ∈ (handleTwitterAuthRaw env cfg code).1, isPropagationEvent e = false := by
  unfold handleTwitterAuthRaw
  split
  · split
    · simp [isPropagationEvent]
    · split <;> simp [isPropagationEvent]
  · simp [isPropagationEvent]

lemma linkedin_not_prop (env : Env) (cfg : Config) (code : String) :
    ∀ e ∈ (handleLinkedInAuth env cfg code).1, isPropagationEvent e = false := by
  unfold handleLinkedInAuth
  split <;> simp [isPropagationEvent]

lemma facebook_not_prop (env : Env) (cfg : Config) (code : String) :
    ∀ e ∈ (handleFacebookAuth env cfg code).1, isPropagationEvent e = false := by
  unfold handleFacebookAuth
  split <;> simp [isPropagationEvent]

lemma instagram_not_prop (env : Env) (cfg : Config) (code : String) :
    ∀ e ∈ (handleInstagramAuth env cfg code).1, isPropagationEvent e = false := by
  unfold handleInstagramAuth
  split <;> simp [isPropagationEvent]

lemma dispatch_not_prop (env : Env) (cfg : Config) (platform code : String) :
    ∀ e ∈ (dispatch env cfg platform code).1, isPropagationEvent e = false := by
  unfold dispatch
  split
  · rw [handleTwitterAuth_fst]
    exact twitterRaw_not_prop env cfg code
  · split
    · exact linkedin_not_prop env cfg code
    · split
      · exact facebook_not_prop env cfg code
      · split
        · exact instagram_not_prop env cfg code
        · simp

lemma coreRun_not_prop (env : Env) (cfg : Config) (p : Params) :
    ∀ e ∈ (coreRun env cfg p).1, isPropagationEvent e = false := by
  unfold coreRun
  split
  · simp
  · split
    · simp
    · split <;> rename_i aevs heq
      all_goals
        intro e he
        rcases List.mem_cons.mp he with rfl | hmem
        · rfl
        · have h2 := dispatch_not_prop env cfg (p.platform.getD "") (p.code.getD "")
          rw [heq] at h2
          exact h2 e hmem

lemma twitterRaw_upserts (env : Env) (cfg : Config) (code : String) :
    ∀ r ∈ upsertRecords (handleTwitterAuthRaw env cfg code).1, r.user_id = env.getUserId := by
  unfold handleTwitterAuthRaw
  split
  · split
    · simp [upsertRecords]
    · split <;> simp [upsertRecords, twitterRecord]
  · simp [upsertRecords]

lemma twitterRaw_scan (env : Env) (cfg : Config) (code : String) (b : Bool) :
    userResolvedScan b (handleTwitterAuthRaw env cfg code).1 = true := by
  unfold handleTwitterAuthRaw
  split
  · split
    · simp [userResolvedScan]
    · split <;> simp [userResolvedScan]
  · simp [userResolvedScan]

lemma twitterRaw_fetches (env : Env) (cfg : Config) (code : String) :
    fetchedRequests (handleTwitterAuthRaw env cfg code).1 = [twitterRequest env cfg code] := by
  unfold handleTwitterAuthRaw
  split
  · split
    · simp [fetchedRequests]
    · split <;> simp [fetchedRequests]
  · simp [fetchedRequests]

lemma linkedin_upserts_nil (env : Env) (cfg : Config) (code : String) :
    upsertRecords (handleLinkedInAuth env cfg code).1 = [] := by
  unfold handleLinkedInAuth
  split <;> simp [upsertRecords]

lemma facebook_upserts_nil (env : Env) (cfg : Config) (code : String) :
    upsertRecords (handleFacebookAuth env cfg code).1 = [] := by
  unfold handleFacebookAuth
  split <;> simp [upsertRecords]

lemma instagram_upserts_nil (env : Env) (cfg : Config) (code : String) :
    upsertRecords (handleInstagramAuth env cfg code).1 = [] := by
  unfold handleInstagramAuth
  split <;> simp [upsertRecords]

lemma linkedin_fetches (env : Env) (cfg : Config) (code : String) :
    fetchedRequests (handleLinkedInAuth env cfg code).1 = [linkedinRequest env cfg code] := by
  unfold handleLinkedInAuth
  split <;> simp [fetchedRequests]

lemma dispatch_upserts (env : Env) (cfg : Config) (platform code : String) :
    ∀ r ∈ upsertRecords (dispatch env cfg platform code).1, r.user_id = env.getUserId := by
  unfold dispatch
  split
  · rw [handleTwitterAuth_fst]
    exact twitterRaw_upserts env cfg code
  · split
    · rw [linkedin_upserts_nil]; simp
    · split
      · rw [facebook_upserts_nil]; simp
      · split
        · rw [instagram_upserts_nil]; simp
        · simp [upsertRecords]

lemma dispatch_scan (env : Env) (cfg : Config) (platform code : String) (b : Bool) :
    userResolvedScan b (dispatch env cfg platform code).1 = true := by
  unfold dispatch
  split
  · rw [handleTwitterAuth_fst]
    exact twitterRaw_scan env cfg code b
  · split
    · unfold handleLinkedInAuth
      split <;> simp [userResolvedScan]
    · split
      · unfold handleFacebookAuth
        split <;> simp [userResolvedScan]
      · split
        · unfold handleInstagramAuth
          split <;> simp [userResolvedScan]
        · simp [userResolvedScan]

lemma dispatch_upserts_non_twitter (env : Env) (cfg : Config) (platform code : String)
    (h : platform ≠ "twitter") :
    upsertRecords (dispatch env cfg platform code).1 = [] := by
  unfold dispatch
  split
  · rename_i hp
    exact absurd hp h
  · split
    · exact linkedin_upserts_nil env cfg code
    · split
      · exact facebook_upserts_nil env cfg code
      · split
        · exact instagram_upserts_nil env cfg code
        · simp [upsertRecords]

lemma handleTwitterAuth_none (env : Env) (cfg : Config) (code : String) (aevs : List Event)
    (h : handleTwitterAuth env cfg code = (aevs, none)) :
    handleTwitterAuthRaw env cfg code = (aevs, none) := by
  unfold handleTwitterAuth at h
  split at h
  · simp at h
  · rename_i heq
    cases h
    exact heq

lemma twitterRaw_success (env : Env) (cfg : Config) (code : String) (aevs : List Event)
    (h : handleTwitterAuthRaw env cfg code = (aevs, none)) :
    connectedPlatforms aevs = ["twitter"]
    ∧ downstreamCalls aevs =
        (upsertRecords aevs).map Event.upsert ++ [Event.connectAccount "twitter"] := by
  unfold handleTwitterAuthRaw at h
  split at h
  · split at h
    · simp at h
    · split at h
      · simp at h
      · cases h
        simp [connectedPlatforms, downstreamCalls, upsertRecords]
  · simp at h

lemma linkedin_success (env : Env) (cfg : Config) (code : String) (aevs : List Event)
    (h : handleLinkedInAuth env cfg code = (aevs, none)) :
    aevs = [Event.fetch (linkedinRequest env cfg code), Event.connectAccount "linkedin"] := by
  unfold handleLinkedInAuth at h
  split at h
  · cases h; rfl
  · simp at h

lemma facebook_success (env : Env) (cfg : Config) (code : String) (aevs : List Event)
    (h : handleFacebookAuth env cfg code = (aevs, none)) :
    aevs = [Event.fetch (facebookRequest env cfg code), Event.connectAccount "facebook"] := by
  unfold handleFacebookAuth at h
  split at h
  · cases h; rfl
  · simp at h

lemma instagram_success (env : Env) (cfg : Config) (code : String) (aevs : List Event)
    (h : handleInstagramAuth env cfg code = (aevs, none)) :
    aevs = [Event.fetch (instagramRequest env cfg code), Event.connectAccount "instagram"] := by
  unfold handleInstagramAuth at h
  split at h
  · cases h; rfl
  · simp at h

lemma dispatch_success (env : Env) (cfg : Config) (platform code : String) (aevs : List Event)
    (h : dispatch env cfg platform code = (aevs, none)) :
    connectedPlatforms aevs = [platform]
    ∧ downstreamCalls aevs =
        (upsertRecords aevs).map Event.upsert ++ [Event.connectAccount platform] := by
  unfold dispatch at h
  split at h
  · rename_i hp
    subst hp
    exact twitterRaw_success env cfg code aevs (handleTwitterAuth_none env cfg code aevs h)
  · split at h
    · rename_i hp
      subst hp
      rw [linkedin_success env cfg code aevs h]
      simp [connectedPlatforms, downstreamCalls, upsertRecords]
    · split at h
      · rename_i hp
        subst hp
        rw [facebook_success env cfg code aevs h]
        simp [connectedPlatforms, downstreamCalls, upsertRecords]
      · split at h
        · rename_i hp
          subst hp
          rw [instagram_success env cfg code aevs h]
          simp [connectedPlatforms, downstreamCalls, upsertRecords]
        · simp at h

lemma coreRun_upserts (env : Env) (cfg : Config) (p : Params) :
    ∀ r ∈ upsertRecords (coreRun env cfg p).1, r.user_id = env.getUserId := by
  unfold coreRun
  split
  · simp [upsertRecords]
  · split
    · simp [upsertRecords]
    · split <;> rename_i aevs heq
      all_goals
        intro r hr
        have h2 := dispatch_upserts env cfg (p.platform.getD "") (p.code.getD "")
        rw [heq] at h2
        refine h2 r ?_
        simpa [upsertRecords] using hr

lemma coreRun_scan (env : Env) (cfg : Config) (p : Params) :
    userResolvedScan false (coreRun env cfg p).1 = true := by
  unfold coreRun
  split
  · rfl
  · split
    · rfl
    · split <;> rename_i aevs heq
      all_goals
        have h2 := dispatch_scan env cfg (p.platform.getD "") (p.code.getD "") false
        rw [heq] at h2
        simpa [userResolvedScan] using h2

lemma coreRun_upserts_non_twitter (env : Env) (cfg : Config) (p : Params)
    (h : p.platform ≠ some "twitter") :
    upsertRecords (coreRun env cfg p).1 = [] := by
  have hplat : p.platform.getD "" ≠ "twitter" := by
    intro hs
    cases hpf : p.platform with
    | none => rw [hpf] at hs; exact absurd hs (by decide)
    | some s =>
        rw [hpf] at hs
        simp at hs
        exact h (by rw [hpf, hs])
  unfold coreRun
  split
  · rfl
  · split
    · rfl
    · split <;> rename_i aevs heq
      all_goals
        have h2 := dispatch_upserts_non_twitter env cfg (p.platform.getD "") (p.code.getD "") hplat
        rw [heq] at h2
        simpa [upsertRecords] using h2

lemma coreRun_success (env : Env) (cfg : Config) (p : Params) (evs : List Event) (P : String)
    (h : coreRun env cfg p = (evs, Sum.inr P)) :
    p.platform = some P
    ∧ connectedPlatforms evs = [P]
    ∧ downstreamCalls evs =
        (upsertRecords evs).map Event.upsert ++ [Event.connectAccount P] := by
  unfold coreRun at h
  split at h
  · simp at h
  · split at h
    · simp at h
    · rename_i hval
      split at h
      · simp at h
      · rename_i aevs heq
        cases h
        have hplat : p.platform = some (p.platform.getD "") := by
          cases hpf : p.platform with
          | none => exact absurd (by rw [hpf]; simp [truthy]) hval
          | some s => simp
        have hd := dispatch_success env cfg (p.platform.getD "") (p.code.getD "") aevs heq
        refine ⟨hplat, ?_, ?_⟩
        · simpa [connectedPlatforms] using hd.1
        · simpa [downstreamCalls, upsertRecords, connectedPlatforms] using hd.2

lemma handleAuth_of_inl (env : Env) (cfg : Config) (p : Params) (evs : List Event) (msg : String)
    (h : coreRun env cfg p = (evs, Sum.inl msg)) :
    handleAuth env cfg p = mkFailure env evs msg := by
  unfold handleAuth
  rw [h]

lemma handleAuth_of_inr (env : Env) (cfg : Config) (p : Params) (evs : List Event) (P : String)
    (h : coreRun env cfg p = (evs, Sum.inr P)) :
    handleAuth env cfg p = mkSuccess env evs P := by
  unfold handleAuth
  rw [h]

lemma allEvents_mkSuccess (env : Env) (evs : List Event) (P : String) :
    allEvents (mkSuccess env evs P) =
      (evs ++ [Event.setStatus "Successfully connected!"]) ++
        propagateEvents env (PostedMessage.authSuccess P) := by
  simp [allEvents, mkSuccess]

lemma allEvents_mkFailure (env : Env) (evs : List Event) (msg : String) :
    allEvents (mkFailure env evs msg) =
      (evs ++ [Event.setError msg, Event.setStatus "Authentication failed"]) ++
        propagateEvents env (PostedMessage.authError msg) := rfl

lemma propagate_opener (env : Env) (msg : PostedMessage) (h : env.hasOpener = true) :
    propagateEvents env msg = [Event.postMessage msg env.origin, Event.closeWindow] := by
  simp [propagateEvents, h]

lemma propagate_no_opener (env : Env) (msg : PostedMessage) (h : env.hasOpener = false) :
    propagateEvents env msg = [Event.navigate "/"] := by
  simp [propagateEvents, h]

lemma fetchedRequests_propagate (env : Env) (msg : PostedMessage) :
    fetchedRequests (propagateEvents env msg) = [] := by
  unfold propagateEvents
  split <;> rfl

lemma upsertRecords_propagate (env : Env) (msg : PostedMessage) :
    upsertRecords (propagateEvents env msg) = [] := by
  unfold propagateEvents
  split <;> rfl

lemma connectedPlatforms_propagate (env : Env) (msg : PostedMessage) :
    connectedPlatforms (propagateEvents env msg) = [] := by
  unfold propagateEvents
  split <;> rfl

lemma downstreamCalls_propagate (env : Env) (msg : PostedMessage) :
    downstreamCalls (propagateEvents env msg) = [] := by
  unfold propagateEvents
  split <;> rfl

lemma scan_propagate (env : Env) (msg : PostedMessage) (b : Bool) :
    userResolvedScan b (propagateEvents env msg) = true := by
  unfold propagateEvents
  split <;> cases b <;> rfl

lemma postedMessages_nil_of (l : List Event)
    (h : ∀ e ∈ l, isPropagationEvent e = false) : postedMessages l = [] := by
  unfold postedMessages
  rw [List.filterMap_eq_nil_iff]
  intro e he
  have h2 := h e he
  cases e <;> simp_all [isPropagationEvent]

lemma navigationsOf_nil_of (l : List Event)
    (h : ∀ e ∈ l, isPropagationEvent e = false) : navigationsOf l = [] := by
  unfold navigationsOf
  rw [List.filterMap_eq_nil_iff]
  intro e he
  have h2 := h e he
  cases e <;> simp_all [isPropagationEvent]

lemma nonPropagation_append_of (l t : List Event)
    (hl : ∀ e ∈ l, isPropagationEvent e = false)
    (ht : ∀ e ∈ t, isPropagationEvent e = true) :
    nonPropagation (l ++ t) = l := by
  unfold nonPropagation
  rw [List.filter_append]
  rw [List.filter_eq_self.mpr (by intro e he; simp [hl e he])]
  rw [List.filter_eq_nil_iff.mpr (by intro e he; simp [ht e he])]
  simp

lemma scan_append_of (l t : List Event) (b : Bool)
    (ht : ∀ b2, userResolvedScan b2 t = true) :
    userResolvedScan b (l ++ t) = userResolvedScan b l := by
  induction l generalizing b with
  | nil => simpa [userResolvedScan] using ht b
  | cons e rest ih =>
      cases e <;> simp [userResolvedScan, ih]

lemma fetch_append (l t : List Event) :
    fetchedRequests (l ++ t) = fetchedRequests l ++ fetchedRequests t := by
  simp [fetchedRequests]

lemma ups_append (l t : List Event) :
    upsertRecords (l ++ t) = upsertRecords l ++ upsertRecords t := by
  simp [upsertRecords]

lemma conn_append (l t : List Event) :
    connectedPlatforms (l ++ t) = connectedPlatforms l ++ connectedPlatforms t := by
  simp [connectedPlatforms]

lemma down_append (l t : List Event) :
    downstreamCalls (l ++ t) = downstreamCalls l ++ downstreamCalls t := by
  simp [downstreamCalls]

lemma nav_append (l t : List Event) :
    navigationsOf (l ++ t) = navigationsOf l ++ navigationsOf t := by
  simp [navigationsOf]

lemma fetch_cons_status (s : String) (l : List Event) :
    fetchedRequests (Event.setStatus s :: l) = fetchedRequests l := rfl

lemma fetch_cons_error (s : String) (l : List Event) :
    fetchedRequests (Event.setError s :: l) = fetchedRequests l := rfl

lemma fetch_nil : fetchedRequests [] = [] := rfl

lemma ups_cons_status (s : String) (l : List Event) :
    upsertRecords (Event.setStatus s :: l) = upsertRecords l := rfl

lemma ups_cons_error (s : String) (l : List Event) :
    upsertRecords (Event.setError s :: l) = upsertRecords l := rfl

lemma ups_nil : upsertRecords [] = [] := rfl

lemma conn_cons_status (s : String) (l : List Event) :
    connectedPlatforms (Event.setStatus s :: l) = connectedPlatforms l := rfl

lemma conn_cons_error (s : String) (l : List Event) :
    connectedPlatforms (Event.setError s :: l) = connectedPlatforms l := rfl

lemma conn_nil : connectedPlatforms [] = [] := rfl

lemma down_cons_status (s : String) (l : List Event) :
    downstreamCalls (Event.setStatus s :: l) = downstreamCalls l := rfl

lemma down_cons_error (s : String) (l : List Event) :
    downstreamCalls (Event.setError s :: l) = downstreamCalls l := rfl

lemma down_nil : downstreamCalls [] = [] := rfl

lemma scan_cons_status (b : Bool) (s : String) (l : List Event) :
    userResolvedScan b (Event.setStatus s :: l) = userResolvedScan b l := rfl

lemma scan_cons_error (b : Bool) (s : String) (l : List Event) :
    userResolvedScan b (Event.setError s :: l) = userResolvedScan b l := rfl

lemma fail_setters_not_prop (msg : String) :
    ∀ e ∈ [Event.setError msg, Event.setStatus "Authentication failed"],
      isPropagationEvent e = false := by
  simp [isPropagationEvent]

lemma success_setter_not_prop :
    ∀ e ∈ [Event.setStatus "Successfully connected!"], isPropagationEvent e = false := by
  simp [isPropagationEvent]

lemma popup_tail_prop (msg : PostedMessage) (o : String) :
    ∀ e ∈ [Event.postMessage msg o, Event.closeWindow], isPropagationEvent e = true := by
  simp [isPropagationEvent]

lemma nav_tail_prop :
    ∀ e ∈ [Event.navigate "/"], isPropagationEvent e = true := by
  simp [isPropagationEvent]

lemma not_prop_append (l t : List Event)
    (hl : ∀ e ∈ l, isPropagationEvent e = false)
    (ht : ∀ e ∈ t, isPropagationEvent e = false) :
    ∀ e ∈ l ++ t, isPropagationEvent e = false := by
  intro e he
  rcases List.mem_append.mp he with h1 | h1
  · exact hl e h1
  · exact ht e h1

lemma coreRun_literal_fail (env : Env) (cfg : Config) (P c : String) (s : Option String)
    (aevs : List Event) (msg : String)
    (hP : P ≠ "") (hc : c ≠ "") (hd : dispatch env cfg P c = (aevs, some msg)) :
    coreRun env cfg ⟨some P, some c, none, s⟩ =
      (Event.setStatus ("Connecting " ++ P ++ " account...") :: aevs, Sum.inl msg) := by
  unfold coreRun
  rw [if_neg (by simp [truthy]), if_neg (by simp [truthy, hP, hc])]
  simp only [Option.getD_some]
  rw [hd]

lemma coreRun_literal_success (env : Env) (cfg : Config) (P c : String) (s : Option String)
    (aevs : List Event)
    (hP : P ≠ "") (hc : c ≠ "") (hd : dispatch env cfg P c = (aevs, none)) :
    coreRun env cfg ⟨some P, some c, none, s⟩ =
      (Event.setStatus ("Connecting " ++ P ++ " account...") :: aevs, Sum.inr P) := by
  unfold coreRun
  rw [if_neg (by simp [truthy]), if_neg (by simp [truthy, hP, hc])]
  simp only [Option.getD_some]
  rw [hd]

lemma twitterRaw_success_of (env : Env) (cfg : Config) (c : String)
    (hok : (env.net (twitterRequest env cfg c)).ok = true) (e : Int)
    (he : (env.net (twitterRequest env cfg c)).body.expires_in = some e)
    (hup : env.upsertResult (twitterRecord env (env.net (twitterRequest env cfg c)).body e) = none) :
    handleTwitterAuthRaw env cfg c =
      ([Event.fetch (twitterRequest env cfg c), Event.getUser,
        Event.upsert (twitterRecord env (env.net (twitterRequest env cfg c)).body e),
        Event.connectAccount "twitter"], none) := by
  unfold handleTwitterAuthRaw
  rw [if_pos hok]
  split
  · rename_i heq
    rw [he] at heq
    simp at heq
  · rename_i e2 heq
    rw [he] at heq
    cases heq
    rw [hup]

lemma twitterRaw_store_failure_of (env : Env) (cfg : Config) (c : String)
    (hok : (env.net (twitterRequest env cfg c)).ok = true) (e : Int)
    (he : (env.net (twitterRequest env cfg c)).body.expires_in = some e) (err : String)
    (hup : env.upsertResult (twitterRecord env (env.net (twitterRequest env cfg c)).body e) =
      some err) :
    handleTwitterAuthRaw env cfg c =
      ([Event.fetch (twitterRequest env cfg c), Event.getUser,
        Event.upsert (twitterRecord env (env.net (twitterRequest env cfg c)).body e)],
       some "Failed to store Twitter credentials") := by
  unfold handleTwitterAuthRaw
  rw [if_pos hok]
  split
  · rename_i heq
    rw [he] at heq
    simp at heq
  · rename_i e2 heq
    rw [he] at heq
    cases heq
    rw [hup]

lemma dispatch_twitter (env : Env) (cfg : Config) (c : String) :
    dispatch env cfg "twitter" c = handleTwitterAuth env cfg c := by
  unfold dispatch
  rw [if_pos rfl]

lemma dispatch_linkedin (env : Env) (cfg : Config) (c : String) :
    dispatch env cfg "linkedin" c = handleLinkedInAuth env cfg c := by
  unfold dispatch
  rw [if_neg (by decide), if_pos rfl]

lemma dispatch_facebook (env : Env) (cfg : Config) (c : String) :
    dispatch env cfg "facebook" c = handleFacebookAuth env cfg c := by
  unfold dispatch
  rw [if_neg (by decide), if_neg (by decide), if_pos rfl]

lemma dispatch_instagram (env : Env) (cfg : Config) (c : String) :
    dispatch env cfg "instagram" c = handleInstagramAuth env cfg c := by
  unfold dispatch
  rw [if_neg (by decide), if_neg (by decide), if_neg (by decide), if_pos rfl]

/-! ### Claim theorems -/

/-- C1, amended: for every invocation whose redirect parameters carry a
nonempty `error` value, the flow reaches the failed outcome carrying the
provider-supplied error text, and no token-endpoint request is ever made.
(The claim as stated is false for an empty-string `error` value, because
the source tests `if (error)`, a truthiness check.) -/
theorem error_param_fails_before_exchange (env : Env) (cfg : Config) (p : Params) (e : String)
    (he : p.error = some e) (hne : e ≠ "") :
    (handleAuth env cfg p).outcome = Outcome.failure ("Authentication failed: " ++ e)
    ∧ fetchedRequests (allEvents (handleAuth env cfg p)) = [] := by
  have hcr : coreRun env cfg p = ([], Sum.inl ("Authentication failed: " ++ e)) := by
    unfold coreRun
    rw [he]
    simp [truthy, hne]
  rw [handleAuth_of_inl env cfg p _ _ hcr]
  refine ⟨rfl, ?_⟩
  rw [allEvents_mkFailure, fetch_append, fetchedRequests_propagate]
  simp [fetch_append, fetch_cons_error, fetch_cons_status, fetch_nil]

/-- C1, counterexample to the claim as stated: with `error` present but
equal to the empty string (`?error=`), the flow does not fail; it proceeds
to the LinkedIn exchange and succeeds. -/
theorem empty_error_param_proceeds_cx :
    (handleAuth envBase cfgFull ⟨some "linkedin", some "c", some "", none⟩).outcome =
      Outcome.success "linkedin"
    ∧ fetchedRequests
        (allEvents (handleAuth envBase cfgFull ⟨some "linkedin", some "c", some "", none⟩)) =
      [linkedinRequest envBase cfgFull "c"] := ⟨rfl, rfl⟩

/-- Witness for C1 at a concrete denied-authorization input. -/
theorem error_param_witness :
    (handleAuth envBase cfgFull ⟨some "x", some "c", some "denied", none⟩).outcome =
      Outcome.failure ("Authentication failed: " ++ "denied")
    ∧ fetchedRequests
        (allEvents (handleAuth envBase cfgFull ⟨some "x", some "c", some "denied", none⟩)) = [] :=
  error_param_fails_before_exchange envBase cfgFull _ "denied" rfl (by decide)

/-- C8: if no `error` parameter is present and `platform` or `code` is
absent, the flow fails with the missing-parameters message and no
token-endpoint request is ever made. -/
theorem missing_params_fail_before_network (env : Env) (cfg : Config) (p : Params)
    (he : p.error = none) (hm : p.platform = none ∨ p.code = none) :
    (handleAuth env cfg p).outcome = Outcome.failure "Missing required parameters"
    ∧ fetchedRequests (allEvents (handleAuth env cfg p)) = [] := by
  have hcond : (!truthy p.platform || !truthy p.code) = true := by
    rcases hm with h | h <;> rw [h] <;> simp [truthy]
  have hcr : coreRun env cfg p = ([], Sum.inl "Missing required parameters") := by
    unfold coreRun
    rw [he, if_neg (by simp [truthy]), if_pos hcond]
  rw [handleAuth_of_inl env cfg p _ _ hcr]
  refine ⟨rfl, ?_⟩
  rw [allEvents_mkFailure, fetch_append, fetchedRequests_propagate]
  simp [fetch_append, fetch_cons_error, fetch_cons_status, fetch_nil]

/-- Witness for C8 with the platform parameter absent. -/
theorem missing_params_witness :
    (handleAuth envBase cfgFull ⟨none, some "c", none, none⟩).outcome =
      Outcome.failure "Missing required parameters"
    ∧ fetchedRequests (allEvents (handleAuth envBase cfgFull ⟨none, some "c", none, none⟩)) = [] :=
  missing_params_fail_before_network envBase cfgFull _ rfl (Or.inl rfl)

/-- C10: two invocations whose redirect parameters differ only in the
`state` value have identical observable behaviour (same events, same
delayed propagation, same outcome): the flow reads `state` but never uses
it. -/
theorem state_param_irrelevant (env : Env) (cfg : Config) (pl c er s1 s2 : Option String) :
    handleAuth env cfg ⟨pl, c, er, s1⟩ = handleAuth env cfg ⟨pl, c, er, s2⟩ := rfl

/-- C7: for every successful twitter exchange whose response carries
`expires_in = e` seconds, the record handed to the persistence upsert has
`expires_at` equal to the invocation time plus `e` seconds (`Date.now() +
e * 1000` ms), and it is the only record ever upserted. -/
theorem twitter_expiry_computation (env : Env) (cfg : Config) (c : String) (s : Option String)
    (e : Int) (hc : c ≠ "")
    (hok : (env.net (twitterRequest env cfg c)).ok = true)
    (he : (env.net (twitterRequest env cfg c)).body.expires_in = some e) :
    upsertRecords (allEvents (handleAuth env cfg ⟨some "twitter", some c, none, s⟩)) =
      [twitterRecord env (env.net (twitterRequest env cfg c)).body e]
    ∧ (twitterRecord env (env.net (twitterRequest env cfg c)).body e).expires_at =
        env.now + e * 1000 := by
  refine ⟨?_, rfl⟩
  rcases hup : env.upsertResult (twitterRecord env (env.net (twitterRequest env cfg c)).body e)
    with _ | err
  · have hT : handleTwitterAuth env cfg c =
        ([Event.fetch (twitterRequest env cfg c), Event.getUser,
          Event.upsert (twitterRecord env (env.net (twitterRequest env cfg c)).body e),
          Event.connectAccount "twitter"], none) := by
      unfold handleTwitterAuth
      rw [twitterRaw_success_of env cfg c hok e he hup]
    have hcr := coreRun_literal_success env cfg "twitter" c s _ (by decide) hc
      ((dispatch_twitter env cfg c).trans hT)
    rw [handleAuth_of_inr _ _ _ _ _ hcr, allEvents_mkSuccess, ups_append,
      upsertRecords_propagate]
    simp [ups_append, ups_cons_status, upsertRecords]
  · have hT : handleTwitterAuth env cfg c =
        ([Event.fetch (twitterRequest env cfg c), Event.getUser,
          Event.upsert (twitterRecord env (env.net (twitterRequest env cfg c)).body e)],
         some "Failed to store Twitter credentials") := by
      unfold handleTwitterAuth
      rw [twitterRaw_store_failure_of env cfg c hok e he err hup]
      simp [jsOr]
    have hcr := coreRun_literal_fail env cfg "twitter" c s _ _ (by decide) hc
      ((dispatch_twitter env cfg c).trans hT)
    rw [handleAuth_of_inl _ _ _ _ _ hcr, allEvents_mkFailure, ups_append,
      upsertRecords_propagate]
    simp [ups_append, ups_cons_status, ups_cons_error, upsertRecords]

/-- Witness for C7 at the baseline environment (`expires_in = 3600`). -/
theorem twitter_expiry_witness :
    upsertRecords (allEvents (handleAuth envBase cfgFull ⟨some "twitter", some "c", none, none⟩)) =
      [twitterRecord envBase okTokenBody 3600]
    ∧ (twitterRecord envBase okTokenBody 3600).expires_at = envBase.now + 3600 * 1000 :=
  twitter_expiry_computation envBase cfgFull "c" none 3600 (by decide) rfl rfl

/-- C2, amended: a successful exchange for LinkedIn, Facebook or Instagram
leads to exactly one `connectAccount` call with that platform as argument;
for twitter the same holds provided the persistence step also succeeds
(the response carries `expires_in` and the upsert reports no error).  (The
claim as stated — one call regardless of persistence — is false: a twitter
exchange whose upsert fails never calls `connectAccount`.) -/
theorem exchange_success_connect_once (env : Env) (cfg : Config) (c : String) (s : Option String)
    (hc : c ≠ "") :
    ((env.net (linkedinRequest env cfg c)).ok = true →
      connectedPlatforms (allEvents (handleAuth env cfg ⟨some "linkedin", some c, none, s⟩)) =
        ["linkedin"])
    ∧ ((env.net (facebookRequest env cfg c)).ok = true →
      connectedPlatforms (allEvents (handleAuth env cfg ⟨some "facebook", some c, none, s⟩)) =
        ["facebook"])
    ∧ ((env.net (instagramRequest env cfg c)).ok = true →
      connectedPlatforms (allEvents (handleAuth env cfg ⟨some "instagram", some c, none, s⟩)) =
        ["instagram"])
    ∧ ((env.net (twitterRequest env cfg c)).ok = true →
      ∀ e, (env.net (twitterRequest env cfg c)).body.expires_in = some e →
        env.upsertResult (twitterRecord env (env.net (twitterRequest env cfg c)).body e) = none →
        connectedPlatforms (allEvents (handleAuth env cfg ⟨some "twitter", some c, none, s⟩)) =
          ["twitter"]) := by
  refine ⟨?_, ?_, ?_, ?_⟩
  · intro hok
    have hA : handleLinkedInAuth env cfg c =
        ([Event.fetch (linkedinRequest env cfg c), Event.connectAccount "linkedin"], none) := by
      unfold handleLinkedInAuth
      rw [if_pos hok]
    have hcr := coreRun_literal_success env cfg "linkedin" c s _ (by decide) hc
      ((dispatch_linkedin env cfg c).trans hA)
    rw [handleAuth_of_inr _ _ _ _ _ hcr, allEvents_mkSuccess, conn_append,
      connectedPlatforms_propagate]
    simp [conn_append, conn_cons_status, connectedPlatforms]
  · intro hok
    have hA : handleFacebookAuth env cfg c =
        ([Event.fetch (facebookRequest env cfg c), Event.connectAccount "facebook"], none) := by
      unfold handleFacebookAuth
      rw [if_pos hok]
    have hcr := coreRun_literal_success env cfg "facebook" c s _ (by decide) hc
      ((dispatch_facebook env cfg c).trans hA)
    rw [handleAuth_of_inr _ _ _ _ _ hcr, allEvents_mkSuccess, conn_append,
      connectedPlatforms_propagate]
    simp [conn_append, conn_cons_status, connectedPlatforms]
  · intro hok
    have hA : handleInstagramAuth env cfg c =
        ([Event.fetch (instagramRequest env cfg c), Event.connectAccount "instagram"], none) := by
      unfold handleInstagramAuth
      rw [if_pos hok]
    have hcr := coreRun_literal_success env cfg "instagram" c s _ (by decide) hc
      ((dispatch_instagram env cfg c).trans hA)
    rw [handleAuth_of_inr _ _ _ _ _ hcr, allEvents_mkSuccess, conn_append,
      connectedPlatforms_propagate]
    simp [conn_append, conn_cons_status, connectedPlatforms]
  · intro hok e he hup
    have hT : handleTwitterAuth env cfg c =
        ([Event.fetch (twitterRequest env cfg c), Event.getUser,
          Event.upsert (twitterRecord env (env.net (twitterRequest env cfg c)).body e),
          Event.connectAccount "twitter"], none) := by
      unfold handleTwitterAuth
      rw [twitterRaw_success_of env cfg c hok e he hup]
    have hcr := coreRun_literal_success env cfg "twitter" c s _ (by decide) hc
      ((dispatch_twitter env cfg c).trans hT)
    rw [handleAuth_of_inr _ _ _ _ _ hcr, allEvents_mkSuccess, conn_append,
      connectedPlatforms_propagate]
    simp [conn_append, conn_cons_status, connectedPlatforms]

/-- C2, counterexample to the claim as stated: a twitter exchange that
succeeds but whose persistence upsert fails makes zero `connectAccount`
calls. -/
theorem twitter_store_failure_no_connect_cx :
    (envUpsertFail.net (twitterRequest envUpsertFail cfgFull "c")).ok = true
    ∧ connectedPlatforms
        (allEvents (handleAuth envUpsertFail cfgFull ⟨some "twitter", some "c", none, none⟩)) = []
    ∧ (handleAuth envUpsertFail cfgFull ⟨some "twitter", some "c", none, none⟩).outcome =
        Outcome.failure "Failed to store Twitter credentials" := ⟨rfl, rfl, rfl⟩

/-- Witness for C2 at the baseline environment (LinkedIn and twitter). -/
theorem connect_once_witness :
    connectedPlatforms
      (allEvents (handleAuth envBase cfgFull ⟨some "linkedin", some "c", none, none⟩)) =
        ["linkedin"]
    ∧ connectedPlatforms
        (allEvents (handleAuth envBase cfgFull ⟨some "twitter", some "c", none, none⟩)) =
        ["twitter"] :=
  ⟨(exchange_success_connect_once envBase cfgFull "c" none (by decide)).1 rfl,
   (exchange_success_connect_once envBase cfgFull "c" none (by decide)).2.2.2 rfl 3600 rfl rfl⟩

lemma flow_fetches_twitter (env : Env) (cfg : Config) (c : String) (s : Option String)
    (hc : c ≠ "") :
    fetchedRequests (allEvents (handleAuth env cfg ⟨some "twitter", some c, none, s⟩)) =
      [twitterRequest env cfg c] := by
  rcases hd : handleTwitterAuth env cfg c with ⟨aevs, aerr⟩
  have hfetch : fetchedRequests aevs = [twitterRequest env cfg c] := by
    have h2 := twitterRaw_fetches env cfg c
    rw [← handleTwitterAuth_fst, hd] at h2
    exact h2
  have hdisp : dispatch env cfg "twitter" c = (aevs, aerr) :=
    (dispatch_twitter env cfg c).trans hd
  cases aerr with
  | none =>
      have hcr := coreRun_literal_success env cfg "twitter" c s aevs (by decide) hc hdisp
      rw [handleAuth_of_inr _ _ _ _ _ hcr, allEvents_mkSuccess]
      simp [fetch_append, fetch_cons_status, fetchedRequests_propagate, fetch_nil, hfetch]
  | some msg =>
      have hcr := coreRun_literal_fail env cfg "twitter" c s aevs msg (by decide) hc hdisp
      rw [handleAuth_of_inl _ _ _ _ _ hcr, allEvents_mkFailure]
      simp [fetch_append, fetch_cons_status, fetch_cons_error, fetchedRequests_propagate,
        fetch_nil, hfetch]

lemma flow_fetches_linkedin (env : Env) (cfg : Config) (c : String) (s : Option String)
    (hc : c ≠ "") :
    fetchedRequests (allEvents (handleAuth env cfg ⟨some "linkedin", some c, none, s⟩)) =
      [linkedinRequest env cfg c] := by
  rcases hd : handleLinkedInAuth env cfg c with ⟨aevs, aerr⟩
  have hfetch : fetchedRequests aevs = [linkedinRequest env cfg c] := by
    have h2 := linkedin_fetches env cfg c
    rw [hd] at h2
    exact h2
  have hdisp : dispatch env cfg "linkedin" c = (aevs, aerr) :=
    (dispatch_linkedin env cfg c).trans hd
  cases aerr with
  | none =>
      have hcr := coreRun_literal_success env cfg "linkedin" c s aevs (by decide) hc hdisp
      rw [handleAuth_of_inr _ _ _ _ _ hcr, allEvents_mkSuccess]
      simp [fetch_append, fetch_cons_status, fetchedRequests_propagate, fetch_nil, hfetch]
  | some msg =>
      have hcr := coreRun_literal_fail env cfg "linkedin" c s aevs msg (by decide) hc hdisp
      rw [handleAuth_of_inl _ _ _ _ _ hcr, allEvents_mkFailure]
      simp [fetch_append, fetch_cons_status, fetch_cons_error, fetchedRequests_propagate,
        fetch_nil, hfetch]

/-- C6, amended: no fail-fast configuration check exists.  With a required
client credential absent from configuration, the adapter still issues its
token-endpoint request, carrying the literal string `undefined` in place
of the missing value (shown for the twitter client id and the LinkedIn
client secret; the flow never fails with a configuration error before the
request). -/
theorem missing_credential_request_sent (env : Env) (cfg : Config) (c : String)
    (s : Option String) (hc : c ≠ "")
    (ht : cfg.twitterClientId = none) (hl : cfg.linkedinClientSecret = none) :
    fetchedRequests (allEvents (handleAuth env cfg ⟨some "twitter", some c, none, s⟩)) =
      [twitterRequest env cfg c]
    ∧ ("client_id", "undefined") ∈ (twitterRequest env cfg c).body
    ∧ fetchedRequests (allEvents (handleAuth env cfg ⟨some "linkedin", some c, none, s⟩)) =
      [linkedinRequest env cfg c]
    ∧ ("client_secret", "undefined") ∈ (linkedinRequest env cfg c).body := by
  refine ⟨flow_fetches_twitter env cfg c s hc, ?_, flow_fetches_linkedin env cfg c s hc, ?_⟩
  · simp [twitterRequest, ht, jsString]
  · simp [linkedinRequest, hl, jsString]

/-- C6, counterexample to the claim as stated: with the twitter client id
unset the flow does not fail fast; it sends the token-endpoint request
with `client_id=undefined` and even completes successfully. -/
theorem missing_credential_no_failfast_cx :
    fetchedRequests
      (allEvents (handleAuth envBase cfgMissing ⟨some "twitter", some "c", none, none⟩)) =
      [twitterRequest envBase cfgMissing "c"]
    ∧ ("client_id", "undefined") ∈ (twitterRequest envBase cfgMissing "c").body
    ∧ (handleAuth envBase cfgMissing ⟨some "twitter", some "c", none, none⟩).outcome =
        Outcome.success "twitter" := ⟨rfl, by decide, rfl⟩

/-- Witness for C6 at the concrete configuration with both credentials
missing. -/
theorem missing_credential_witness :
    fetchedRequests
      (allEvents (handleAuth envBase cfgMissing ⟨some "twitter", some "k", none, none⟩)) =
      [twitterRequest envBase cfgMissing "k"]
    ∧ ("client_id", "undefined") ∈ (twitterRequest envBase cfgMissing "k").body
    ∧ fetchedRequests
        (allEvents (handleAuth envBase cfgMissing ⟨some "linkedin", some "k", none, none⟩)) =
      [linkedinRequest envBase cfgMissing "k"]
    ∧ ("client_secret", "undefined") ∈ (linkedinRequest envBase cfgMissing "k").body :=
  missing_credential_request_sent envBase cfgMissing "k" none (by decide) rfl rfl

/-- C3: when launched as a popup (an opener window exists), every flow —
success or failure — posts exactly one structured message to the opener
(`SOCIAL_AUTH_SUCCESS` with the platform on success, `SOCIAL_AUTH_ERROR`
with the error text on failure), targeted at the origin of the page itself, and
then closes the window: the full trace is its propagation-free part
followed by exactly the message post and the window close. -/
theorem popup_propagation (env : Env) (cfg : Config) (p : Params) (h : env.hasOpener = true) :
    allEvents (handleAuth env cfg p) =
      nonPropagation (allEvents (handleAuth env cfg p)) ++
        [Event.postMessage (outcomeMessage (handleAuth env cfg p).outcome) env.origin,
         Event.closeWindow] := by
  rcases hcr : coreRun env cfg p with ⟨evs, res⟩
  have hfree := coreRun_not_prop env cfg p
  rw [hcr] at hfree
  cases res with
  | inl msg =>
      rw [handleAuth_of_inl _ _ _ _ _ hcr, allEvents_mkFailure, propagate_opener _ _ h]
      rw [nonPropagation_append_of _ _
        (not_prop_append _ _ hfree (fail_setters_not_prop msg))
        (popup_tail_prop (PostedMessage.authError msg) env.origin)]
      simp [mkFailure, outcomeMessage]
  | inr P =>
      rw [handleAuth_of_inr _ _ _ _ _ hcr, allEvents_mkSuccess, propagate_opener _ _ h]
      rw [nonPropagation_append_of _ _
        (not_prop_append _ _ hfree success_setter_not_prop)
        (popup_tail_prop (PostedMessage.authSuccess P) env.origin)]
      simp [mkSuccess, outcomeMessage]

/-- Witness for C3 at the baseline popup environment. -/
theorem popup_witness :
    allEvents (handleAuth envBase cfgFull ⟨some "linkedin", some "c", none, none⟩) =
      nonPropagation
          (allEvents (handleAuth envBase cfgFull ⟨some "linkedin", some "c", none, none⟩)) ++
        [Event.postMessage
          (outcomeMessage
            (handleAuth envBase cfgFull ⟨some "linkedin", some "c", none, none⟩).outcome)
          envBase.origin,
         Event.closeWindow] :=
  popup_propagation envBase cfgFull ⟨some "linkedin", some "c", none, none⟩ rfl

/-- C4: when not launched as a popup, both outcomes end in navigation back
to the home location; the success-case propagation is immediate (no
delayed continuation) while the failure-case propagation is scheduled
only in the delayed continuation, with a delay of at least 3000 ms, and
no navigation happens among the immediate events. -/
theorem fullpage_propagation (env : Env) (cfg : Config) (p : Params)
    (h : env.hasOpener = false) :
    (∀ P, (handleAuth env cfg p).outcome = Outcome.success P →
        (handleAuth env cfg p).delayed = none
        ∧ allEvents (handleAuth env cfg p) =
            nonPropagation (allEvents (handleAuth env cfg p)) ++ [Event.navigate "/"])
    ∧ (∀ m, (handleAuth env cfg p).outcome = Outcome.failure m →
        (handleAuth env cfg p).delayed = some (failureDelayMs, [Event.navigate "/"])
        ∧ 3000 ≤ failureDelayMs
        ∧ navigationsOf (handleAuth env cfg p).immediate = []) := by
  rcases hcr : coreRun env cfg p with ⟨evs, res⟩
  have hfree := coreRun_not_prop env cfg p
  rw [hcr] at hfree
  cases res with
  | inl msg =>
      rw [handleAuth_of_inl _ _ _ _ _ hcr]
      constructor
      · intro P hP
        simp [mkFailure] at hP
      · intro m hm
        have hmm : msg = m := by simpa [mkFailure] using hm
        subst hmm
        refine ⟨?_, by decide, ?_⟩
        · simp [mkFailure, propagate_no_opener _ _ h]
        · exact navigationsOf_nil_of _ (not_prop_append _ _ hfree (fail_setters_not_prop msg))
  | inr P =>
      rw [handleAuth_of_inr _ _ _ _ _ hcr]
      constructor
      · intro Q hQ
        have hPQ : P = Q := by simpa [mkSuccess] using hQ
        subst hPQ
        refine ⟨rfl, ?_⟩
        rw [allEvents_mkSuccess, propagate_no_opener _ _ h]
        rw [nonPropagation_append_of _ _
          (not_prop_append _ _ hfree success_setter_not_prop) nav_tail_prop]
      · intro m hm
        simp [mkSuccess] at hm

/-- Witness for C4: a success flow and a failure flow in a full-page
context. -/
theorem fullpage_witness :
    ((handleAuth envNoOpener cfgFull ⟨some "linkedin", some "c", none, none⟩).delayed = none
      ∧ allEvents (handleAuth envNoOpener cfgFull ⟨some "linkedin", some "c", none, none⟩) =
          nonPropagation
              (allEvents (handleAuth envNoOpener cfgFull ⟨some "linkedin", some "c", none, none⟩)) ++
            [Event.navigate "/"])
    ∧ ((handleAuth envNoOpener cfgFull ⟨none, none, some "denied", none⟩).delayed =
          some (failureDelayMs, [Event.navigate "/"])
      ∧ 3000 ≤ failureDelayMs
      ∧ navigationsOf
          (handleAuth envNoOpener cfgFull ⟨none, none, some "denied", none⟩).immediate = []) :=
  ⟨(fullpage_propagation envNoOpener cfgFull ⟨some "linkedin", some "c", none, none⟩ rfl).1
      "linkedin" rfl,
   (fullpage_propagation envNoOpener cfgFull ⟨none, none, some "denied", none⟩ rfl).2
      "Authentication failed: denied" rfl⟩

/-- C5, amended: before any persistence upsert the flow resolves the
current authenticated user (a `getUser` resolution precedes every upsert
in the trace), and every upserted record carries exactly the resolved
identifier — including `none` when no user is authenticated, in which
case the upsert is still performed (the source reads the id with optional
chaining and never fails with a missing-user error). -/
theorem upsert_user_resolution (env : Env) (cfg : Config) (p : Params) :
    userResolvedScan false (allEvents (handleAuth env cfg p)) = true
    ∧ ∀ record ∈ upsertRecords (allEvents (handleAuth env cfg p)),
        record.user_id = env.getUserId := by
  rcases hcr : coreRun env cfg p with ⟨evs, res⟩
  have hscan := coreRun_scan env cfg p
  have hups := coreRun_upserts env cfg p
  rw [hcr] at hscan hups
  cases res with
  | inl msg =>
      rw [handleAuth_of_inl _ _ _ _ _ hcr, allEvents_mkFailure]
      constructor
      · rw [List.append_assoc, scan_append_of _ _ _ ?ht]
        · exact hscan
        case ht =>
          intro b2
          simp [List.cons_append, scan_cons_error, scan_cons_status, scan_propagate]
      · intro record hrec
        simp only [ups_append, ups_cons_error, ups_cons_status, ups_nil,
          upsertRecords_propagate, List.append_nil] at hrec
        exact hups record hrec
  | inr P =>
      rw [handleAuth_of_inr _ _ _ _ _ hcr, allEvents_mkSuccess]
      constructor
      · rw [List.append_assoc, scan_append_of _ _ _ ?ht2]
        · exact hscan
        case ht2 =>
          intro b2
          simp [List.cons_append, scan_cons_status, scan_propagate]
      · intro record hrec
        simp only [ups_append, ups_cons_status, ups_nil,
          upsertRecords_propagate, List.append_nil] at hrec
        exact hups record hrec

/-- C5, counterexample to the claim as stated: with no authenticated user
the flow does not fail; it performs the upsert anyway, with an absent
user identifier, and completes successfully. -/
theorem no_user_upsert_proceeds_cx :
    upsertRecords
      (allEvents (handleAuth envNoUser cfgFull ⟨some "twitter", some "c", none, none⟩)) =
      [twitterRecord envNoUser okTokenBody 3600]
    ∧ (twitterRecord envNoUser okTokenBody 3600).user_id = none
    ∧ (handleAuth envNoUser cfgFull ⟨some "twitter", some "c", none, none⟩).outcome =
        Outcome.success "twitter" := ⟨rfl, rfl, rfl⟩

/-- Witness for C5 at the baseline environment (one upsert, resolved user
id). -/
theorem user_resolution_witness :
    userResolvedScan false
      (allEvents (handleAuth envBase cfgFull ⟨some "twitter", some "c", none, none⟩)) = true
    ∧ (twitterRecord envBase okTokenBody 3600).user_id = envBase.getUserId :=
  ⟨(upsert_user_resolution envBase cfgFull ⟨some "twitter", some "c", none, none⟩).1,
   (upsert_user_resolution envBase cfgFull ⟨some "twitter", some "c", none, none⟩).2
      (twitterRecord envBase okTokenBody 3600) (by decide)⟩

/-- C9: for a flow dispatched to linkedin, facebook or instagram the
credential store is never written (no upsert call occurs in the trace),
and on success the only downstream-collaborator calls are exactly one
connection-registration notification with that platform. -/
theorem non_twitter_no_persistence (env : Env) (cfg : Config) (p : Params) (P : String)
    (hP : P = "linkedin" ∨ P = "facebook" ∨ P = "instagram")
    (hp : p.platform = some P) :
    upsertRecords (allEvents (handleAuth env cfg p)) = []
    ∧ ∀ Q, (handleAuth env cfg p).outcome = Outcome.success Q →
        downstreamCalls (allEvents (handleAuth env cfg p)) = [Event.connectAccount P] := by
  have hPt : P ≠ "twitter" := by rcases hP with rfl | rfl | rfl <;> decide
  have hnt : p.platform ≠ some "twitter" := by
    rw [hp]
    exact fun hcon => hPt (Option.some.inj hcon)
  have hupn := coreRun_upserts_non_twitter env cfg p hnt
  rcases hcr : coreRun env cfg p with ⟨evs, res⟩
  rw [hcr] at hupn
  cases res with
  | inl msg =>
      rw [handleAuth_of_inl _ _ _ _ _ hcr, allEvents_mkFailure]
      refine ⟨?_, ?_⟩
      · simp [ups_append, ups_cons_error, ups_cons_status, ups_nil,
          upsertRecords_propagate, hupn]
      · intro Q hQ
        simp [mkFailure] at hQ
  | inr Q0 =>
      have hsucc := coreRun_success env cfg p evs Q0 hcr
      have hQP : Q0 = P := by
        have h2 := hsucc.1
        rw [hp] at h2
        exact (Option.some.inj h2).symm
      rw [handleAuth_of_inr _ _ _ _ _ hcr, allEvents_mkSuccess]
      refine ⟨?_, ?_⟩
      · simp [ups_append, ups_cons_status, ups_nil, upsertRecords_propagate, hupn]
      · intro Q hQ
        rw [down_append, downstreamCalls_propagate, List.append_nil, down_append]
        rw [hsucc.2.2, hupn]
        simp [down_cons_status, down_nil, hQP]

/-- Witness for C9 at the baseline environment with the Instagram flow. -/
theorem no_persistence_witness :
    upsertRecords
      (allEvents (handleAuth envBase cfgFull ⟨some "instagram", some "c", none, none⟩)) = []
    ∧ downstreamCalls
        (allEvents (handleAuth envBase cfgFull ⟨some "instagram", some "c", none, none⟩)) =
        [Event.connectAccount "instagram"] :=
  ⟨(non_twitter_no_persistence envBase cfgFull ⟨some "instagram", some "c", none, none⟩
      "instagram" (Or.inr (Or.inr rfl)) rfl).1,
   (non_twitter_no_persistence envBase cfgFull ⟨some "instagram", some "c", none, none⟩
      "instagram" (Or.inr (Or.inr rfl)) rfl).2 "instagram" rfl⟩

end AuthCallback
